import Mathlib

/-!
Shallow embedding of the WalletWise analytics aggregation, period
resolution, dashboard summary and free-text budget extraction logic,
together with proofs of the specified properties.

Sources embedded:
- `src/src/components/Analytics.tsx` (`fetchAnalyticsData`,
  `getStartDateForPeriod`, `generateMonthlyTrends`)
- `src/src/components/Dashboard.tsx` (`fetchDashboardStats`)
- the OpenAI helper module (`analyzeFinancialInput`, `extractBudgetData`,
  `extractBudgetDataFallback`, `determineAction`)

Numbers are modelled as exact rationals (the spec treats amounts as
decimals); JS objects used as string-keyed accumulators are modelled as
insertion-ordered association lists, matching JS object key order.
-/

namespace WalletWise

/-! ### JS object accumulator: `obj[k] = (obj[k] || 0) + v` -/

/-- Insertion-ordered string-keyed map, as JS objects enumerate keys. -/
abbrev Rec := List (String × ℚ)

/-- `obj[k] = (obj[k] || 0) + v`: add to an existing key in place, or
append a fresh key at the end (JS object insertion order). -/
def upsertAdd : Rec → String → ℚ → Rec
  | [], k, v => [(k, v)]
  | (k', v') :: rest, k, v =>
    if k' = k then (k', v' + v) :: rest
    else (k', v') :: upsertAdd rest k v

/-- Sum of all values of the map (`sum(categoryTotals.values())`). -/
def sumValues (r : Rec) : ℚ := (r.map Prod.snd).sum

/-! ### Transactions as consumed by `fetchAnalyticsData` -/

/-- One fetched transaction row: amount, calendar month index of its
`transaction_date` (0 = Jan .. 11 = Dec), and the joined category name
(`transaction.categories?.name`, absent when the join is null). -/
structure Txn where
  amount : ℚ
  month : Fin 12
  category : Option String
deriving DecidableEq

/-- `transaction.categories?.name || 'Miscellaneous'`. -/
def categoryLabel (t : Txn) : String := t.category.getD "Miscellaneous"

/-- The category-spending / total-spent accumulation loop of
`fetchAnalyticsData` (Analytics.tsx lines 114-123): starts from an empty
object and `totalSpent = 0`, and for each transaction adds its amount to
its category's entry and to the running total. -/
def processSpending (txns : List Txn) : Rec × ℚ :=
  txns.foldl
    (fun acc t => (upsertAdd acc.1 (categoryLabel t) t.amount, acc.2 + t.amount))
    ([], 0)

/-! ### `generateMonthlyTrends` -/

/-- The fixed month-label table used for sorting the trend. -/
def monthNames : List String :=
  ["Jan", "Feb", "Mar", "Apr", "May", "Jun",
   "Jul", "Aug", "Sep", "Oct", "Nov", "Dec"]

/-- `date.toLocaleDateString('en-US', \x7b month: 'short' \x7d)` for a valid
date whose month index is `m`. -/
def monthKeyOf (t : Txn) : String :=
  monthNames.get ⟨t.month, by have := t.month.isLt; simp [monthNames]⟩

/-- JS `Array.prototype.indexOf`: index of the first occurrence, `-1` when
absent. -/
def jsIndexOf (s : String) : List String → Int
  | [] => -1
  | m :: rest =>
    if m = s then 0
    else
      let r := jsIndexOf s rest
      if r = -1 then -1 else r + 1

/-- The comparator of `generateMonthlyTrends`:
`months.indexOf(a.month) - months.indexOf(b.month) <= 0`. -/
def trendOrder (a b : String × ℚ) : Prop :=
  jsIndexOf a.1 monthNames ≤ jsIndexOf b.1 monthNames

instance : DecidableRel trendOrder := fun a b =>
  inferInstanceAs (Decidable (jsIndexOf a.1 monthNames ≤ jsIndexOf b.1 monthNames))

instance : IsTotal (String × ℚ) trendOrder :=
  ⟨fun a b => le_total (jsIndexOf a.1 monthNames) (jsIndexOf b.1 monthNames)⟩

instance : IsTrans (String × ℚ) trendOrder :=
  ⟨fun _ _ _ hab hbc => le_trans hab hbc⟩

/-- The grouping loop of `generateMonthlyTrends`: sum amounts per short
month label, keys in first-seen order. -/
def monthlyData (txns : List Txn) : Rec :=
  txns.foldl (fun acc t => upsertAdd acc (monthKeyOf t) t.amount) []

/-- `generateMonthlyTrends` (Analytics.tsx lines 185-200): group by month
label, then sort the `Object.entries` list by calendar month index (a
stable comparison sort, modelled by insertion sort). -/
def generateMonthlyTrends (txns : List Txn) : Rec :=
  List.insertionSort trendOrder (monthlyData txns)

/-! ### `getStartDateForPeriod` -/

/-- A calendar date as produced by the JS `Date(year, monthIndex, day)`
constructor after normalization; `month` is the 0-based month index. -/
structure SimpleDate where
  year : Int
  month : Int
  day : Int
deriving DecidableEq

/-- `new Date(y, m, d)` for an in-range day `d`: JS normalizes an
out-of-range month index by carrying into the year
(`year = y + floor(m / 12)`, `month = m mod 12` with a non-negative
remainder). -/
def mkDate (y m d : Int) : SimpleDate := ⟨y + m.fdiv 12, m.emod 12, d⟩

/-- `getStartDateForPeriod` (Analytics.tsx lines 171-183): switch on the
period key; any unrecognized key falls through to the `current` default. -/
def getStartDateForPeriod (period : String) (now : SimpleDate) : SimpleDate :=
  if period = "last3" then mkDate now.year (now.month - 3) 1
  else if period = "last6" then mkDate now.year (now.month - 6) 1
  else if period = "year" then mkDate now.year 0 1
  else mkDate now.year now.month 1

/-- The resolved reporting range: start from `getStartDateForPeriod`, end
`new Date()` (now), as used by `fetchAnalyticsData`. -/
def resolveRange (period : String) (now : SimpleDate) : SimpleDate × SimpleDate :=
  (getStartDateForPeriod period now, now)

/-! ### Average daily spend -/

/-- `Math.ceil((endDate.getTime() - startDate.getTime()) / (1000*60*60*24))`
with the two `getTime()` millisecond values as exact rationals. -/
def daysDiff (startMs endMs : ℚ) : Int := ⌈(endMs - startMs) / 86400000⌉

/-- `daysDiff > 0 ? totalSpent / daysDiff : 0`. -/
def averageDaily (totalSpent : ℚ) (d : Int) : ℚ :=
  if 0 < d then totalSpent / (d : ℚ) else 0

/-! ### `fetchAnalyticsData` as a pure function of its fetch outcomes -/

/-- The derived analytics output record. -/
structure AnalyticsData where
  categorySpending : Rec
  monthlyTrends : Rec
  totalSpent : ℚ
  averageDaily : ℚ
deriving DecidableEq

/-- The hard-coded sample dataset installed by the `catch` branch of
`fetchAnalyticsData` (Analytics.tsx lines 144-164). -/
def sampleAnalyticsData : AnalyticsData where
  categorySpending :=
    [("Rent", 1200), ("Groceries", 450), ("Transportation", 300),
     ("Entertainment", 200), ("Healthcare", 150), ("Savings", 500),
     ("Miscellaneous", 100)]
  monthlyTrends :=
    [("Jan", 2800), ("Feb", 2650), ("Mar", 2900),
     ("Apr", 2750), ("May", 2850), ("Jun", 2900)]
  totalSpent := 2900
  averageDaily := 9667 / 100

/-- `fetchAnalyticsData` (Analytics.tsx lines 61-169) as a pure function of
the two fetch outcomes and the period-range timestamps. A budgets-fetch
error is re-thrown and lands in the `catch` branch (sample data); an empty
budget list short-circuits to the all-empty record; a transactions-fetch
error is logged and the computation continues with an empty array. -/
def fetchAnalyticsData (budgetsRes : Except Unit (List String))
    (txRes : Except Unit (List Txn)) (startMs endMs : ℚ) : AnalyticsData :=
  match budgetsRes with
  | .error _ => sampleAnalyticsData
  | .ok budgets =>
    if budgets = [] then
      { categorySpending := [], monthlyTrends := [], totalSpent := 0, averageDaily := 0 }
    else
      let txns := match txRes with | .error _ => [] | .ok l => l
      let p := processSpending txns
      { categorySpending := p.1
        monthlyTrends := generateMonthlyTrends txns
        totalSpent := p.2
        averageDaily := averageDaily p.2 (daysDiff startMs endMs) }

/-! ### Free-text budget extraction (`extractBudgetData`)

The extraction regexes all have the shape
`<keyword>[:\s]*\$?(\d+(?:,\d\x7b3\x7d)*(?:\.\d\x7b2\x7d)?)` and are applied to the
lowercased input with a leftmost-first search. Because no character of the
class `[:\s]` is a `$` or a digit, and nothing follows the capture group,
the backtracking regex engine behaves as the deterministic maximal-munch
matcher implemented below. -/

/-- The JS `\s` class restricted to the ASCII whitespace characters. -/
def jsIsSpace (c : Char) : Bool :=
  c = ' ' || c = '\t' || c = '\n' || c = '\r' || c = '\x0b' || c = '\x0c'

/-- The character class `[:\s]` of the amount regexes. -/
def isSepChar (c : Char) : Bool := c = ':' || jsIsSpace c

/-- Greedy `(?:,\d\x7b3\x7d)*`: consume repetitions of a comma followed by
exactly three digits; return the consumed characters and the rest. -/
def matchThousands : List Char → List Char × List Char
  | ',' :: a :: b :: c :: rest =>
    if a.isDigit && b.isDigit && c.isDigit then
      let t := matchThousands rest
      (',' :: a :: b :: c :: t.1, t.2)
    else ([], ',' :: a :: b :: c :: rest)
  | s => ([], s)

/-- Optional `(?:\.\d\x7b2\x7d)?`: a dot followed by exactly two digits. -/
def matchCents : List Char → List Char × List Char
  | '.' :: a :: b :: rest =>
    if a.isDigit && b.isDigit then (['.', a, b], rest)
    else ([], '.' :: a :: b :: rest)
  | s => ([], s)

/-- The capture group `(\d+(?:,\d\x7b3\x7d)*(?:\.\d\x7b2\x7d)?)`: at least one
digit, then thousands groups, then optional cents. Returns the captured
characters, or `none` when no digit starts here. -/
def matchNumber (s : List Char) : Option (List Char) :=
  let ds := s.takeWhile Char.isDigit
  if ds = [] then none
  else
    let r := s.dropWhile Char.isDigit
    let t := matchThousands r
    let c := matchCents t.2
    some (ds ++ t.1 ++ c.1)

/-- Try the whole pattern `<kw>[:\s]*\$?(<number>)` anchored at the start of
`s`; return the capture group on success. -/
def matchAt (kw : List Char) (s : List Char) : Option (List Char) :=
  if kw.isPrefixOf s then
    let r1 := (s.drop kw.length).dropWhile isSepChar
    let r2 := match r1 with
      | '$' :: rest => rest
      | other => other
    matchNumber r2
  else none

/-- Leftmost-first regex search (`String.prototype.match` without the `g`
flag): try the pattern at each successive start position and return the
first capture group found. -/
def findGroup (kw : List Char) : List Char → Option (List Char)
  | [] => matchAt kw []
  | c :: rest =>
    match matchAt kw (c :: rest) with
    | some g => some g
    | none => findGroup kw rest

/-- `String.prototype.replace(',', '')` with a string pattern: remove only
the FIRST comma, leaving any later commas in place. -/
def replaceFirstComma : List Char → List Char
  | [] => []
  | c :: rest => if c = ',' then rest else c :: replaceFirstComma rest

/-- Numeric value of a digit list (most significant first). -/
def digitsVal (ds : List Char) : ℕ :=
  ds.foldl (fun a c => 10 * a + (c.toNat - 48)) 0

/-- JS `parseFloat` on the strings produced here (which begin with a digit
or are junk after a digit prefix): parse the maximal leading
`digits[.digits]` prefix and ignore the rest of the string. -/
def jsParseFloat (s : List Char) : ℚ :=
  let ip := s.takeWhile Char.isDigit
  let r := s.dropWhile Char.isDigit
  match r with
  | '.' :: r2 =>
    let fp := r2.takeWhile Char.isDigit
    (digitsVal ip : ℚ) + (digitsVal fp : ℚ) / 10 ^ fp.length
  | _ => (digitsVal ip : ℚ)

/-- `input.toLowerCase()` (ASCII letters; the keywords searched for are all
ASCII). -/
def toLowerChars (s : String) : List Char := s.toList.map Char.toLower

/-- One keyword extraction:
`lowerInput.match(/<kw>[:\s]*\$?(<number>)/)` followed by
`parseFloat(match[1].replace(',', ''))`. -/
def extractAmount (kw : String) (lowerInput : List Char) : Option ℚ :=
  (findGroup kw.toList lowerInput).map fun g => jsParseFloat (replaceFirstComma g)

/-- The fixed expense-category vocabulary. -/
def categories : List String :=
  ["rent", "groceries", "transportation", "entertainment",
   "healthcare", "savings", "utilities"]

/-- The sparse extraction result; in the JS object the `expenses` and
`suggestions` keys are present exactly when the lists here are nonempty. -/
structure BudgetData where
  income : Option ℚ
  expenses : List (String × ℚ)
  suggestions : List String
deriving DecidableEq

/-- JS `String.prototype.includes`: substring test. -/
def containsSub (needle : List Char) : List Char → Bool
  | [] => needle.isEmpty
  | c :: rest => needle.isPrefixOf (c :: rest) || containsSub needle rest

/-- The canned-suggestion step of `extractBudgetData`, a function of the AI
response text only. -/
def suggestionsOf (aiResponse : String) : List String :=
  (if containsSub "save".toList aiResponse.toList
      || containsSub "reduce".toList aiResponse.toList then
    ["Consider reducing discretionary spending"]
  else []) ++
  (if containsSub "emergency".toList aiResponse.toList
      || containsSub "fund".toList aiResponse.toList then
    ["Build an emergency fund"]
  else [])

/-- `extractBudgetData(input, aiResponse)`: extract income, per-category
expenses (in vocabulary order, matched categories only) and canned
suggestions; return `undefined` (`none`) when no field was populated. -/
def extractBudgetData (input : String) (aiResponse : String) : Option BudgetData :=
  let lower := toLowerChars input
  let income := extractAmount "income" lower
  let expenses :=
    categories.filterMap fun c => (extractAmount c lower).map fun v => (c, v)
  let suggestions := suggestionsOf aiResponse
  if income.isSome || expenses ≠ [] || suggestions ≠ [] then
    some ⟨income, expenses, suggestions⟩
  else none

/-- `extractBudgetDataFallback(input)`: the deterministic extraction with an
empty AI response. -/
def extractBudgetDataFallback (input : String) : Option BudgetData :=
  extractBudgetData input ""

/-! ### `analyzeFinancialInput` -/

/-- The `action` classification values. -/
inductive BAction
  | update_budget
  | add_transaction
  | set_category_limit
deriving DecidableEq

/-- `determineAction(input)`: keyword families in precedence order. -/
def determineAction (input : String) : BAction :=
  let l := toLowerChars input
  if containsSub "transaction".toList l || containsSub "spent".toList l
      || containsSub "bought".toList l then
    .add_transaction
  else if containsSub "budget".toList l || containsSub "limit".toList l then
    .set_category_limit
  else if containsSub "income".toList l || containsSub "salary".toList l then
    .update_budget
  else .update_budget

/-- Result record of `analyzeFinancialInput`; `action` is absent on the
fallback paths. -/
structure BudgetAnalysis where
  message : String
  budgetData : Option BudgetData
  action : Option BAction
deriving DecidableEq

/-- Outcome of the oracle interaction: no client configured, a successful
completion with the reply text (empty when the content was null), or a
thrown runtime error. -/
inductive OracleOutcome
  | noClient
  | success (reply : String)
  | failure
deriving DecidableEq

/-- Fallback message of the missing-credential branch. -/
def unavailableMessage : String :=
  "AI assistant is currently unavailable. I can still help you parse your budget details manually."

/-- Fallback message of the `catch` branch. -/
def errorMessage : String :=
  "I'm having trouble processing your request right now. Please try again or enter your budget details manually."

/-- `analyzeFinancialInput(input, context)` as a pure function of the input
text and the oracle outcome (the context only feeds the prompt, not the
extraction). -/
def analyzeFinancialInput (input : String) (oracle : OracleOutcome) : BudgetAnalysis :=
  match oracle with
  | .noClient =>
    ⟨unavailableMessage, extractBudgetDataFallback input, none⟩
  | .success reply =>
    ⟨reply, extractBudgetData input reply, some (determineAction input)⟩
  | .failure =>
    ⟨errorMessage, extractBudgetDataFallback input, none⟩

/-! ### `fetchDashboardStats` (Dashboard.tsx) -/

/-- A budget row as used by the dashboard (id and `total_income`). -/
structure BudgetRow where
  id : ℕ
  total_income : ℚ
deriving DecidableEq

/-- A transaction row as stored (`budget_id`, `amount`,
`transaction_date` as an ordered day code: ISO date strings compare
lexicographically, i.e. chronologically). -/
structure TxnRow where
  budget_id : ℕ
  amount : ℚ
  transaction_date : Int
deriving DecidableEq

/-- An EMI row (only `remaining_months` matters here). -/
structure EmiRow where
  remaining_months : Int
deriving DecidableEq

/-- The transactions query:
`.in('budget_id', budgetIds).gte('transaction_date', startOfMonth)`. -/
def queryTransactions (table : List TxnRow) (budgetIds : List ℕ)
    (startOfMonth : Int) : List TxnRow :=
  table.filter fun t =>
    budgetIds.contains t.budget_id && startOfMonth ≤ t.transaction_date

/-- The EMI query: `.gt('remaining_months', 0)`. -/
def queryEmis (table : List EmiRow) : List EmiRow :=
  table.filter fun e => 0 < e.remaining_months

/-- The dashboard headline record set by `fetchDashboardStats`. -/
structure DashboardStats where
  totalIncome : ℚ
  totalExpenses : ℚ
  remainingBalance : ℚ
  monthlyChange : ℚ
  upcomingEmis : ℕ
  categoriesOverBudget : ℕ
deriving DecidableEq

/-- `fetchDashboardStats` (Dashboard.tsx lines 53-128) as a pure function of
the three fetch outcomes over the stored tables and the first day of the
current month. Each fetch error is logged and its collection treated as
null/empty; the transactions fetch is skipped entirely when there are no
budgets; `monthlyChange` (5.2) and `categoriesOverBudget` (1) are
hard-coded mock values on this path. -/
def fetchDashboardStats (budgetsRes : Except Unit (List BudgetRow))
    (txRes : Except Unit (List TxnRow)) (emisRes : Except Unit (List EmiRow))
    (startOfMonth : Int) : DashboardStats :=
  let budgets := match budgetsRes with | .error _ => [] | .ok l => l
  let transactions :=
    if budgets = [] then []
    else
      match txRes with
      | .error _ => []
      | .ok table => queryTransactions table (budgets.map (·.id)) startOfMonth
  let emis := match emisRes with | .error _ => [] | .ok table => queryEmis table
  let totalIncome := (budgets.map (·.total_income)).sum
  let totalExpenses := (transactions.map (·.amount)).sum
  { totalIncome := totalIncome
    totalExpenses := totalExpenses
    remainingBalance := totalIncome - totalExpenses
    monthlyChange := 26 / 5
    upcomingEmis := emis.length
    categoriesOverBudget := 1 }

/-- The all-zero stats installed by the `catch` branch of
`fetchDashboardStats` (Dashboard.tsx lines 114-124). -/
def dashboardCatchStats : DashboardStats :=
  { totalIncome := 0, totalExpenses := 0, remainingBalance := 0,
    monthlyChange := 0, upcomingEmis := 0, categoriesOverBudget := 0 }

/-! ## Helper lemmas -/

/-- Adding `v` under key `k` raises the sum of all values by exactly `v`. -/
theorem sumValues_upsertAdd (r : Rec) (k : String) (v : ℚ) :
    sumValues (upsertAdd r k v) = sumValues r + v := by
  induction r with
  | nil => simp [upsertAdd, sumValues]
  | cons hd tl ih =>
    obtain ⟨k', v'⟩ := hd
    by_cases h : k' = k
    · simp [upsertAdd, h, sumValues]
      ring
    · simp only [upsertAdd, if_neg h, sumValues, List.map_cons, List.sum_cons] at ih ⊢
      rw [ih]
      ring

/-- Invariant of the accumulation loop of `fetchAnalyticsData`: the running
total always exceeds the accumulated category sums by the initial gap. -/
theorem processSpending_loop_invariant :
    ∀ (txns : List Txn) (r : Rec) (q : ℚ),
      (txns.foldl
        (fun acc t => (upsertAdd acc.1 (categoryLabel t) t.amount, acc.2 + t.amount))
        (r, q)).2 + sumValues r
      = sumValues (txns.foldl
        (fun acc t => (upsertAdd acc.1 (categoryLabel t) t.amount, acc.2 + t.amount))
        (r, q)).1 + q := by
  intro txns
  induction txns with
  | nil => intro r q; simp [add_comm]
  | cons t ts ih =>
    intro r q
    simp only [List.foldl_cons]
    have h := ih (upsertAdd r (categoryLabel t) t.amount) (q + t.amount)
    rw [sumValues_upsertAdd] at h
    linarith

/-! ## C1 -/

/-- C1: for every aggregation pass of `fetchAnalyticsData` (any fetch
outcomes, any period range), the produced `totalSpent` equals the sum of
the values of the produced `categorySpending` map. -/
theorem totalSpent_eq_sum_categoryTotals
    (budgetsRes : Except Unit (List String)) (txRes : Except Unit (List Txn))
    (startMs endMs : ℚ) :
    (fetchAnalyticsData budgetsRes txRes startMs endMs).totalSpent
      = sumValues (fetchAnalyticsData budgetsRes txRes startMs endMs).categorySpending := by
  cases budgetsRes with
  | error u =>
    show sampleAnalyticsData.totalSpent = sumValues sampleAnalyticsData.categorySpending
    norm_num [sampleAnalyticsData, sumValues]
  | ok budgets =>
    by_cases hb : budgets = []
    · simp [fetchAnalyticsData, hb, sumValues]
    · have h := processSpending_loop_invariant
        (match txRes with | .error _ => [] | .ok l => l) [] 0
      simp only [fetchAnalyticsData, if_neg hb]
      simpa [processSpending, sumValues] using h

/-! ## C2 -/

/-- C2: the monthly trend series produced by `generateMonthlyTrends` is
sorted by calendar month index (via `indexOf` into the Jan..Dec table) for
every input transaction list, and the concrete input holding only a March
transaction followed by a January transaction yields the series
`[Jan, Mar]`. -/
theorem monthlyTrends_sorted_by_calendar_index (txns : List Txn) :
    List.Sorted trendOrder (generateMonthlyTrends txns) ∧
    (generateMonthlyTrends [⟨100, 2, none⟩, ⟨50, 0, none⟩]).map Prod.fst
      = ["Jan", "Mar"] := by
  constructor
  · exact List.sorted_insertionSort trendOrder (monthlyData txns)
  · decide

/-! ## C3 -/

/-- C3: the Period Resolver maps `last3` at now = 2024-02-15 (month index 1)
to the range starting 2023-11-01 (month index 10; the month arithmetic
rolls back across the year boundary), and maps every key other than
`last3`, `last6` and `year` to the same range as `current`: the first day
of now's month through now. -/
theorem period_resolver_last3_and_unknown (now : SimpleDate) (key : String)
    (h3 : key ≠ "last3") (h6 : key ≠ "last6") (hy : key ≠ "year") :
    resolveRange "last3" ⟨2024, 1, 15⟩ = (⟨2023, 10, 1⟩, ⟨2024, 1, 15⟩) ∧
    resolveRange key now = (mkDate now.year now.month 1, now) ∧
    resolveRange key now = resolveRange "current" now := by
  refine ⟨by decide, ?_, ?_⟩
  · simp [resolveRange, getStartDateForPeriod, h3, h6, hy]
  · simp [resolveRange, getStartDateForPeriod, h3, h6, hy]

/-- C3 witness: the unrecognized key `bogus` resolves, at now = 2024-02-15,
to the first day of February 2024 through now. -/
theorem period_resolver_witness :
    resolveRange "bogus" ⟨2024, 1, 15⟩ = (⟨2024, 1, 1⟩, ⟨2024, 1, 15⟩) := by
  have h := period_resolver_last3_and_unknown ⟨2024, 1, 15⟩ "bogus"
    (by decide) (by decide) (by decide)
  exact h.2.1.trans (by decide)

/-! ## C4 -/

/-- C4 counterexample: an aggregation pass over a zero-length range
(start = end, so `daysInRange = 0`) containing one 200-unit transaction
produces `averageDaily = 0`, while the data-model formula
`totalSpent / max(1, daysInRange)` demands 200; the two formulas cannot be
reconciled on this input. -/
theorem averageDaily_max_formula_counterexample :
    (fetchAnalyticsData (.ok ["b1"]) (.ok [⟨200, 1, some "Food"⟩]) 0 0).totalSpent = 200 ∧
    (fetchAnalyticsData (.ok ["b1"]) (.ok [⟨200, 1, some "Food"⟩]) 0 0).averageDaily = 0 ∧
    daysDiff 0 0 = 0 ∧
    (200 : ℚ) / ((max 1 (daysDiff 0 0) : ℤ) : ℚ) = 200 ∧
    (0 : ℚ) ≠ 200 := by
  have hd : daysDiff 0 0 = 0 := by
    rw [show daysDiff 0 0 = ⌈((0 : ℚ) - 0) / 86400000⌉ from rfl]
    norm_num
  refine ⟨?_, ?_, hd, ?_, by norm_num⟩
  · simp [fetchAnalyticsData, processSpending]
  · simp [fetchAnalyticsData, processSpending, averageDaily, hd]
  · rw [hd]
    norm_num

/-- C4 (amended): `averageDaily` is the guarded division
`totalSpent / daysInRange` with `daysInRange = ceil((end - start) / 1 day)`,
yielding 0 (not an error) whenever `daysInRange <= 0`; it agrees with the
data-model formula `totalSpent / max(1, daysInRange)` exactly when
`daysInRange >= 1` or `totalSpent = 0`. -/
theorem averageDaily_guarded_division (startMs endMs totalSpent : ℚ) :
    averageDaily totalSpent (daysDiff startMs endMs)
      = (if 0 < daysDiff startMs endMs
          then totalSpent / ((daysDiff startMs endMs : ℤ) : ℚ) else 0) ∧
    (averageDaily totalSpent (daysDiff startMs endMs)
        = totalSpent / ((max 1 (daysDiff startMs endMs) : ℤ) : ℚ)
      ↔ 1 ≤ daysDiff startMs endMs ∨ totalSpent = 0) := by
  constructor
  · rfl
  · rcases le_or_lt 1 (daysDiff startMs endMs) with h | h
    · rw [max_eq_right h]
      simp [averageDaily, h, lt_of_lt_of_le Int.zero_lt_one h]
    · have hle : daysDiff startMs endMs ≤ 0 := by omega
      have hmax : max 1 (daysDiff startMs endMs) = 1 := max_eq_left (by omega)
      rw [hmax]
      simp only [averageDaily, if_neg (by omega : ¬ 0 < daysDiff startMs endMs)]
      norm_num
      constructor
      · intro hz; exact Or.inr hz.symm
      · rintro (h1 | h0)
        · omega
        · exact h0.symm

/-- C4 witness: on the one-day range 0 .. 86400001 ms (`daysInRange = 2`)
the guarded division agrees with the `max(1, daysInRange)` formula. -/
theorem averageDaily_guarded_division_witness :
    averageDaily 200 (daysDiff 0 86400001)
      = (200 : ℚ) / ((max 1 (daysDiff 0 86400001) : ℤ) : ℚ) :=
  (averageDaily_guarded_division 0 86400001 200).2.mpr (Or.inl (by
    have h : (0 : ℤ) < daysDiff 0 86400001 := by
      rw [show daysDiff 0 86400001 = ⌈((86400001 : ℚ) - 0) / 86400000⌉ from rfl,
        Int.ceil_pos]
      norm_num
    omega))

/-! ## C5 -/

/-- A comma-free character list is unchanged by the comma filter. -/
theorem filter_comma_of_count_zero (g : List Char) (h : g.count ',' = 0) :
    g.filter (· != ',') = g := by
  rw [List.filter_eq_self]
  intro a ha
  have hnm : ',' ∉ g := List.count_eq_zero.mp h
  simp only [bne_iff_ne, ne_eq]
  exact fun e => hnm (e ▸ ha)

/-- When a string holds at most one comma, removing the first comma removes
them all. -/
theorem replaceFirstComma_eq_filter (g : List Char) (h : g.count ',' ≤ 1) :
    replaceFirstComma g = g.filter (· != ',') := by
  induction g with
  | nil => rfl
  | cons c rest ih =>
    by_cases hc : c = ','
    · subst hc
      have h0 : rest.count ',' = 0 := by
        simp only [List.count_cons_self] at h
        omega
      simp only [replaceFirstComma, if_pos rfl, List.filter_cons,
        bne_self_eq_false, if_neg]
      exact (filter_comma_of_count_zero rest h0).symm
    · have hr : rest.count ',' ≤ 1 := by
        rw [List.count_cons] at h
        omega
      simp only [replaceFirstComma, if_neg hc, List.filter_cons]
      rw [ih hr]
      simp [bne_iff_ne, hc]

/-- C5 counterexample: in `"income 1,200,000"` the amount is written with
two thousands separators, the regex matches the full `1,200,000`, but only
the first separator is stripped (`String.replace` with a string pattern
replaces one occurrence) and `parseFloat` stops at the remaining comma:
the extracted income is 1200, not the written 1200000 — a partial value
from a well-formed number. -/
theorem income_multi_separator_counterexample :
    extractBudgetData "income 1,200,000" "" = some ⟨some 1200, [], []⟩ ∧
    (1200 : ℚ) ≠ 1200000 := ⟨by rfl, by norm_num⟩

/-- C5 (amended): whenever the income regex captures an amount containing
at most one thousands separator, the extracted value is exact — it equals
`parseFloat` of the capture with every separator stripped, and the draft's
income field carries it. (With two or more separators only the first is
stripped and the parse truncates at the next comma.) -/
theorem income_single_separator_exact (input resp : String) (g : List Char)
    (hfind : findGroup "income".toList (toLowerChars input) = some g)
    (hcount : g.count ',' ≤ 1) :
    ∃ d, extractBudgetData input resp = some d ∧
      d.income = some (jsParseFloat (g.filter (· != ','))) := by
  have hinc : extractAmount "income" (toLowerChars input)
      = some (jsParseFloat (g.filter (· != ','))) := by
    unfold extractAmount
    rw [hfind, Option.map_some', replaceFirstComma_eq_filter g hcount]
  simp only [extractBudgetData]
  rw [hinc]
  simp only [Option.isSome_some, Bool.true_or, if_pos]
  exact ⟨_, rfl, rfl⟩

/-- C5 witness: `"income 1,200.50"` (one separator, two cents digits)
extracts exactly 1200.50. -/
theorem income_single_separator_exact_witness :
    ∃ d, extractBudgetData "income 1,200.50" "" = some d ∧
      d.income = some (2401 / 2 : ℚ) := by
  obtain ⟨d, hd, hi⟩ := income_single_separator_exact "income 1,200.50" ""
    ("1,200.50".toList) (by rfl) (by decide)
  refine ⟨d, hd, ?_⟩
  rw [hi]
  congr 1
  show ((1200 : ℕ) : ℚ) + ((50 : ℕ) : ℚ) / 10 ^ (['5', '0'].length) = 2401 / 2
  norm_num

/-! ## C6 -/

/-- C6: the extractor returns the absent draft (`undefined`) exactly when
no income amount matched, no vocabulary category amount matched, and no
suggestion trigger fired — never an all-zero object; and any category whose
pattern did not match is omitted from the `expenses` map of a produced
draft. -/
theorem extract_absent_iff_nothing_matched (input resp : String) :
    (extractBudgetData input resp = none ↔
      extractAmount "income" (toLowerChars input) = none ∧
      (∀ c ∈ categories, extractAmount c (toLowerChars input) = none) ∧
      suggestionsOf resp = []) ∧
    ∀ d c, extractBudgetData input resp = some d →
      extractAmount c (toLowerChars input) = none →
      ∀ v : ℚ, (c, v) ∉ d.expenses := by
  have hexp : ((categories.filterMap
        fun c => (extractAmount c (toLowerChars input)).map fun v => (c, v)) = [])
      ↔ ∀ c ∈ categories, extractAmount c (toLowerChars input) = none := by
    rw [List.filterMap_eq_nil_iff]
    constructor
    · intro h c hc
      have := h c hc
      simpa using this
    · intro h c hc
      rw [h c hc]
      rfl
  constructor
  · simp only [extractBudgetData]
    split
    · rename_i hcond
      constructor
      · intro h
        exact absurd h (by simp)
      · rintro ⟨h1, h2, h3⟩
        rw [h1, hexp.mpr h2, h3] at hcond
        simp at hcond
    · rename_i hcond
      simp only [Bool.or_eq_true, decide_eq_true_eq, not_or, not_not,
        Option.not_isSome_iff_eq_none, ne_eq] at hcond
      obtain ⟨⟨hc1, hc2⟩, hc3⟩ := hcond
      exact iff_of_true rfl ⟨hc1, hexp.mp hc2, hc3⟩
  · intro d c hd hc v hmem
    have hde : d.expenses = categories.filterMap
        fun c => (extractAmount c (toLowerChars input)).map fun v => (c, v) := by
      simp only [extractBudgetData] at hd
      split at hd
      · cases hd
        rfl
      · cases hd
    rw [hde, List.mem_filterMap] at hmem
    obtain ⟨a, ha, hmap⟩ := hmem
    cases hma : extractAmount a (toLowerChars input) with
    | none => rw [hma] at hmap; cases hmap
    | some w =>
      rw [hma] at hmap
      simp only [Option.map_some', Option.some.injEq, Prod.mk.injEq] at hmap
      obtain ⟨hac, -⟩ := hmap
      rw [hac] at hma
      rw [hc] at hma
      cases hma

/-- C6 witness: an input with no recognizable amounts and an AI response
with no trigger words yields the absent draft. -/
theorem extract_absent_witness : extractBudgetData "hello there" "ok" = none :=
  ((extract_absent_iff_nothing_matched "hello there" "ok").1).mpr
    ⟨by rfl, by decide, by rfl⟩

/-! ## C7 -/

/-- C7 counterexample: at the same input, the runtime-failure fallback and
the missing-credential fallback return different messages (the two fixed
apologies differ), so the two results are not identical even though their
budget drafts agree. -/
theorem fallback_messages_differ :
    (analyzeFinancialInput "set my budget" .failure).message
      ≠ (analyzeFinancialInput "set my budget" .noClient).message ∧
    (analyzeFinancialInput "set my budget" .failure).budgetData
      = (analyzeFinancialInput "set my budget" .noClient).budgetData ∧
    analyzeFinancialInput "set my budget" .failure
      ≠ analyzeFinancialInput "set my budget" .noClient := by
  refine ⟨by decide, rfl, ?_⟩
  intro h
  have := congrArg BudgetAnalysis.message h
  exact absurd this (by decide)

/-- C7 (amended): on oracle failure the result carries the fixed
error apology and the Free-Text Extractor's direct result on the input;
its budget draft and action equal those of the no-credential path, but the
two fixed fallback messages differ, so the paths are not byte-identical. -/
theorem oracle_failure_fallback (input : String) :
    (analyzeFinancialInput input .failure).message = errorMessage ∧
    (analyzeFinancialInput input .failure).budgetData = extractBudgetData input "" ∧
    (analyzeFinancialInput input .failure).budgetData
      = (analyzeFinancialInput input .noClient).budgetData ∧
    (analyzeFinancialInput input .failure).action
      = (analyzeFinancialInput input .noClient).action ∧
    (analyzeFinancialInput input .failure).message
      ≠ (analyzeFinancialInput input .noClient).message :=
  ⟨rfl, rfl, rfl, rfl, by show errorMessage ≠ unavailableMessage; decide⟩

/-- C7 witness: the failure-path fields at a concrete input. -/
theorem oracle_failure_fallback_witness :
    (analyzeFinancialInput "track my spending" .failure).message = errorMessage ∧
    (analyzeFinancialInput "track my spending" .failure).budgetData
      = extractBudgetData "track my spending" "" :=
  ⟨(oracle_failure_fallback "track my spending").1,
   (oracle_failure_fallback "track my spending").2.1⟩

/-! ## C8 -/

/-- C8: the dashboard summary sums every returned budget's recorded income,
sums the amounts of the user's current-month transactions, takes the
(possibly negative) difference as the remaining balance, and counts the
EMI rows with a positive remaining-installment counter; the concrete
instance with incomes 1000 and 500 and one 200-unit current-month
transaction yields 1500 / 200 / 1300. -/
theorem dashboard_summary_correct (budgets : List BudgetRow) (txTable : List TxnRow)
    (emisTable : List EmiRow) (startOfMonth : Int) :
    (fetchDashboardStats (.ok budgets) (.ok txTable) (.ok emisTable) startOfMonth).totalIncome
      = (budgets.map (·.total_income)).sum ∧
    (fetchDashboardStats (.ok budgets) (.ok txTable) (.ok emisTable) startOfMonth).totalExpenses
      = ((queryTransactions txTable (budgets.map (·.id)) startOfMonth).map (·.amount)).sum ∧
    (fetchDashboardStats (.ok budgets) (.ok txTable) (.ok emisTable) startOfMonth).remainingBalance
      = (fetchDashboardStats (.ok budgets) (.ok txTable) (.ok emisTable) startOfMonth).totalIncome
        - (fetchDashboardStats (.ok budgets) (.ok txTable) (.ok emisTable) startOfMonth).totalExpenses ∧
    (fetchDashboardStats (.ok budgets) (.ok txTable) (.ok emisTable) startOfMonth).upcomingEmis
      = emisTable.countP (fun e => 0 < e.remaining_months) ∧
    fetchDashboardStats (.ok [⟨1, 1000⟩, ⟨2, 500⟩]) (.ok [⟨1, 200, 5⟩]) (.ok []) 0
      = ⟨1500, 200, 1300, 26 / 5, 0, 1⟩ := by
  refine ⟨rfl, ?_, rfl, ?_,
    by simp [fetchDashboardStats, queryTransactions, queryEmis]; norm_num⟩
  · by_cases hb : budgets = []
    · subst hb
      simp [fetchDashboardStats, queryTransactions]
    · simp [fetchDashboardStats, hb]
  · simp [fetchDashboardStats, queryEmis, List.countP_eq_length_filter]

/-! ## C9 -/

/-- C9 counterexample: when the analytics budgets fetch fails, the catch
branch does not degrade to the empty summary — it installs the fixed
non-empty sample dataset (`totalSpent = 2900`, seven fabricated category
totals), contradicting both "total failure yields an all-zero summary" and
"never replaced with non-empty fabricated data". -/
theorem analytics_sample_fallback_counterexample :
    fetchAnalyticsData (.error ()) (.ok []) 0 0 = sampleAnalyticsData ∧
    (fetchAnalyticsData (.error ()) (.ok []) 0 0).totalSpent = 2900 ∧
    (fetchAnalyticsData (.error ()) (.ok []) 0 0).categorySpending ≠ [] ∧
    (2900 : ℚ) ≠ 0 := by
  refine ⟨rfl, rfl, ?_, by norm_num⟩
  rw [show fetchAnalyticsData (.error ()) (.ok []) 0 0 = sampleAnalyticsData from rfl]
  simp [sampleAnalyticsData]

/-- C9 (amended): a failed transactions fetch is treated as an empty
collection in both the analytics and the dashboard paths, a failed
dashboard budgets or EMI fetch likewise degrades to the empty collection
(all headline figures 0 when every fetch fails), and no fetch error
escapes to the caller; but a failed analytics budgets fetch is replaced by
the fixed non-empty sample dataset instead of an empty result. -/
theorem fetch_failure_degradation
    (budgets : List String) (txRes : Except Unit (List Txn)) (s e : ℚ)
    (bres : Except Unit (List BudgetRow)) (tres : Except Unit (List TxnRow))
    (eres : Except Unit (List EmiRow)) (som : Int) :
    fetchAnalyticsData (.ok budgets) (.error ()) s e
      = fetchAnalyticsData (.ok budgets) (.ok []) s e ∧
    fetchAnalyticsData (.error ()) txRes s e = sampleAnalyticsData ∧
    fetchDashboardStats (.error ()) tres eres som
      = fetchDashboardStats (.ok []) tres eres som ∧
    fetchDashboardStats bres (.error ()) eres som
      = fetchDashboardStats bres (.ok []) eres som ∧
    fetchDashboardStats bres tres (.error ()) som
      = fetchDashboardStats bres tres (.ok []) som ∧
    (fetchDashboardStats (.error ()) (.error ()) (.error ()) som).totalIncome = 0 ∧
    (fetchDashboardStats (.error ()) (.error ()) (.error ()) som).totalExpenses = 0 ∧
    (fetchDashboardStats (.error ()) (.error ()) (.error ()) som).remainingBalance = 0 ∧
    (fetchDashboardStats (.error ()) (.error ()) (.error ()) som).upcomingEmis = 0 := by
  refine ⟨rfl, ?_, ?_, ?_, ?_, rfl, rfl, by show (0 : ℚ) - 0 = 0; norm_num, rfl⟩
  · cases txRes <;> rfl
  · rfl
  · cases bres with
    | error u => rfl
    | ok l =>
      by_cases hb : l = []
      · subst hb; rfl
      · simp [fetchDashboardStats, hb, queryTransactions]
  · rfl

/-! ## C10 -/

/-- C10: category matching is substring-based with no word-boundary
requirement: in `"current 500"` the vocabulary word `rent` never occurs as
a standalone word (it is not at the start and never preceded by a space),
yet the extractor returns an expenses entry `rent = 500` from the interior
of `current`. -/
theorem substring_category_match :
    extractBudgetData "current 500" "" = some ⟨none, [("rent", 500)], []⟩ ∧
    containsSub "rent".toList (toLowerChars "current 500") = true ∧
    containsSub " rent".toList (toLowerChars "current 500") = false := by
  exact ⟨by rfl, by decide, by decide⟩

end WalletWise
